import Mathlib

/-!
Verification of the Unified State Model (USM) element conversions of
`Tudat/Astrodynamics/BasicAstrodynamics/unifiedStateModelElementConversions.cpp`.

The two C++ functions `convertKeplerianToUnifiedStateModelElements` and
`convertUnifiedStateModelToKeplerianElements` are shallowly embedded over the
real numbers: every arithmetic expression, branch condition and wrap loop of
the source is translated one-to-one.  The element vectors are embedded as
structures whose fields correspond, in order, to the element indices used by
the source (the index constants themselves come from `stateVectorIndices.h`,
which is not part of the sources at hand; they are modelled from the
specification's ordered-tuple data model and used for the bounds analysis).
-/

open Real

namespace UsmConversions

/-- Tolerance used by the source to detect singular geometry
(`double singularityTolerance = 1.0e-15;`). -/
def singularityTolerance : ℝ := 1e-15

/-- Keplerian element set, the six slots of the source's `Vector6d` in the
order given by the specification's data model: slot 0 holds the semi-major
axis or, in the parabolic regime, the semi-latus rectum (the two are mutually
exclusive and share the slot), then eccentricity, inclination, right ascension
of the ascending node, argument of periapsis and true anomaly. -/
@[ext]
structure KeplerianElements where
  semiMajorAxis : ℝ
  eccentricity : ℝ
  inclination : ℝ
  longitudeOfAscendingNode : ℝ
  argumentOfPeriapsis : ℝ
  trueAnomaly : ℝ

/-- Unified State Model element set: the seven slots addressed by the source,
in order C, Rf1, Rf2, epsilon1, epsilon2, epsilon3, eta. -/
structure UnifiedStateModelElements where
  CHodograph : ℝ
  Rf1Hodograph : ℝ
  Rf2Hodograph : ℝ
  epsilon1Quaternion : ℝ
  epsilon2Quaternion : ℝ
  epsilon3Quaternion : ℝ
  etaQuaternion : ℝ

/-- The semi-latus rectum the Keplerian-to-USM conversion effectively works
with: slot 0 read directly on the parabolic branch, `a (1 - e^2)` otherwise
(the same branch condition as the source's C computation). -/
noncomputable def semiLatusRectumInput (k : KeplerianElements) : ℝ :=
  if |k.eccentricity - 1| < singularityTolerance then k.semiMajorAxis
  else k.semiMajorAxis * (1 - k.eccentricity * k.eccentricity)

/-- The all-zero Keplerian vector produced by `Vector6d::Zero( 6 )`, which the
source returns unchanged on the pure-retrograde branch. -/
def zeroKeplerianElements : KeplerianElements :=
  { semiMajorAxis := 0, eccentricity := 0, inclination := 0,
    longitudeOfAscendingNode := 0, argumentOfPeriapsis := 0, trueAnomaly := 0 }

/-- Error raised by `convertKeplerianToUnifiedStateModelElements` via
`boost::throw_exception( std::runtime_error( ... ) )`; the message carries the
offending inclination value, which the constructor records. -/
inductive KeplerianToUsmError where
  | inclinationOutOfRange (inclination : ℝ)

/-- The C library function `std::atan2( y, x )`: the angle in `(-pi, pi]` of
the point `(x, y)`, embedded as the complex argument. -/
noncomputable def atan2 (y x : ℝ) : ℝ :=
  Complex.arg { re := x, im := y }

/-- The wrap loop `while ( x < -singularityTolerance ) x = x + 2.0 * PI;`
of the source, in closed form: the first value of the form `x + 2 pi k`
(`k` a natural number) that is at least `-singularityTolerance`. -/
noncomputable def addTwoPiWhileNegative (x : ℝ) : ℝ :=
  if -singularityTolerance ≤ x then x
  else x + 2 * π * (⌈(-singularityTolerance - x) / (2 * π)⌉ : ℤ)

/-- The unchecked body of `convertKeplerianToUnifiedStateModelElements`: the
computation performed after the inclination guard has passed.  Slot 0 of the
input is read as the semi-latus rectum on the parabolic branch and as the
semi-major axis otherwise, exactly as the source reads
`semiLatusRectumIndex` / `semiMajorAxisIndex`. -/
noncomputable def keplerianToUsmBody (keplerianElements : KeplerianElements)
    (centralBodyGravitationalParameter : ℝ) : UnifiedStateModelElements :=
  let CHodograph : ℝ :=
    if |keplerianElements.eccentricity - 1| < singularityTolerance then
      Real.sqrt (centralBodyGravitationalParameter / keplerianElements.semiMajorAxis)
    else
      Real.sqrt (centralBodyGravitationalParameter /
        (keplerianElements.semiMajorAxis *
          (1 - keplerianElements.eccentricity * keplerianElements.eccentricity)))
  let RHodographElement : ℝ := keplerianElements.eccentricity * CHodograph
  let argumentOfLongitude : ℝ :=
    keplerianElements.argumentOfPeriapsis + keplerianElements.trueAnomaly
  { CHodograph := CHodograph
    Rf1Hodograph :=
      - RHodographElement * Real.sin (keplerianElements.longitudeOfAscendingNode +
          keplerianElements.argumentOfPeriapsis)
    Rf2Hodograph :=
      RHodographElement * Real.cos (keplerianElements.longitudeOfAscendingNode +
          keplerianElements.argumentOfPeriapsis)
    epsilon1Quaternion :=
      Real.sin (0.5 * keplerianElements.inclination) *
        Real.cos (0.5 * (keplerianElements.longitudeOfAscendingNode - argumentOfLongitude))
    epsilon2Quaternion :=
      Real.sin (0.5 * keplerianElements.inclination) *
        Real.sin (0.5 * (keplerianElements.longitudeOfAscendingNode - argumentOfLongitude))
    epsilon3Quaternion :=
      Real.cos (0.5 * keplerianElements.inclination) *
        Real.sin (0.5 * (keplerianElements.longitudeOfAscendingNode + argumentOfLongitude))
    etaQuaternion :=
      Real.cos (0.5 * keplerianElements.inclination) *
        Real.cos (0.5 * (keplerianElements.longitudeOfAscendingNode + argumentOfLongitude)) }

/-- `convertKeplerianToUnifiedStateModelElements` of the source: throws (here,
returns `.error`) when the inclination lies outside `[0, pi]`, otherwise
computes the seven USM elements. -/
noncomputable def convertKeplerianToUnifiedStateModelElements
    (keplerianElements : KeplerianElements)
    (centralBodyGravitationalParameter : ℝ) :
    Except KeplerianToUsmError UnifiedStateModelElements :=
  if keplerianElements.inclination < 0 ∨ keplerianElements.inclination > π then
    .error (.inclinationOutOfRange keplerianElements.inclination)
  else
    .ok (keplerianToUsmBody keplerianElements centralBodyGravitationalParameter)

/-- The pure-retrograde singularity test of
`convertUnifiedStateModelToKeplerianElements`: both `epsilon3` and `eta`
within the singularity tolerance of zero.  On this branch the source writes a
diagnostic to `std::cerr` and returns the zero vector. -/
def usmSingularityCondition (usm : UnifiedStateModelElements) : Prop :=
  |usm.epsilon3Quaternion| < singularityTolerance ∧
    |usm.etaQuaternion| < singularityTolerance

noncomputable instance (usm : UnifiedStateModelElements) :
    Decidable (usmSingularityCondition usm) :=
  inferInstanceAs (Decidable (|usm.epsilon3Quaternion| < singularityTolerance ∧
    |usm.etaQuaternion| < singularityTolerance))

/-- Local `cosineLambda` of the source (half-angle double formula for the
cosine of the auxiliary longitude). -/
noncomputable def cosineLambda (usm : UnifiedStateModelElements) : ℝ :=
  (usm.etaQuaternion * usm.etaQuaternion -
    usm.epsilon3Quaternion * usm.epsilon3Quaternion) /
  (usm.epsilon3Quaternion * usm.epsilon3Quaternion +
    usm.etaQuaternion * usm.etaQuaternion)

/-- Local `sineLambda` of the source. -/
noncomputable def sineLambda (usm : UnifiedStateModelElements) : ℝ :=
  (2 * usm.epsilon3Quaternion * usm.etaQuaternion) /
  (usm.epsilon3Quaternion * usm.epsilon3Quaternion +
    usm.etaQuaternion * usm.etaQuaternion)

/-- Local `lambdaFromSineAndCosine` of the source. -/
noncomputable def lambdaFromSineAndCosine (usm : UnifiedStateModelElements) : ℝ :=
  atan2 (sineLambda usm) (cosineLambda usm)

/-- Local auxiliary velocity-hodograph component `ve1` of the source. -/
noncomputable def ve1 (usm : UnifiedStateModelElements) : ℝ :=
  usm.Rf1Hodograph * cosineLambda usm + usm.Rf2Hodograph * sineLambda usm

/-- Local auxiliary velocity-hodograph component `ve2` of the source. -/
noncomputable def ve2 (usm : UnifiedStateModelElements) : ℝ :=
  usm.CHodograph - usm.Rf1Hodograph * sineLambda usm +
    usm.Rf2Hodograph * cosineLambda usm

/-- Local `RHodographElement` of the source's USM-to-Keplerian direction. -/
noncomputable def RHodographElementOut (usm : UnifiedStateModelElements) : ℝ :=
  Real.sqrt (usm.Rf1Hodograph * usm.Rf1Hodograph +
    usm.Rf2Hodograph * usm.Rf2Hodograph)

/-- The eccentricity written to the output vector. -/
noncomputable def eccentricityOutput (usm : UnifiedStateModelElements) : ℝ :=
  RHodographElementOut usm / usm.CHodograph

/-- The value written to output slot 0: the semi-latus rectum on the
parabolic branch, the semi-major axis otherwise. -/
noncomputable def semiMajorAxisOutput (usm : UnifiedStateModelElements)
    (centralBodyGravitationalParameter : ℝ) : ℝ :=
  if |eccentricityOutput usm - 1| < singularityTolerance then
    centralBodyGravitationalParameter / (usm.CHodograph * usm.CHodograph)
  else
    centralBodyGravitationalParameter /
      (2 * usm.CHodograph * ve2 usm - (ve1 usm * ve1 usm + ve2 usm * ve2 usm))

/-- The inclination written to the output vector. -/
noncomputable def inclinationOutput (usm : UnifiedStateModelElements) : ℝ :=
  Real.arccos (1 - 2 * (usm.epsilon1Quaternion * usm.epsilon1Quaternion +
    usm.epsilon2Quaternion * usm.epsilon2Quaternion))

/-- The degenerate (pure-prograde or pure-retrograde) test guarding the
longitude-of-ascending-node computation. -/
def raanDegenerateCondition (usm : UnifiedStateModelElements) : Prop :=
  (|usm.epsilon1Quaternion| < singularityTolerance ∧
    |usm.epsilon2Quaternion| < singularityTolerance) ∨
  (|usm.epsilon3Quaternion| < singularityTolerance ∧
    |usm.etaQuaternion| < singularityTolerance)

noncomputable instance (usm : UnifiedStateModelElements) :
    Decidable (raanDegenerateCondition usm) :=
  inferInstanceAs (Decidable (_ ∨ _))

/-- The longitude of the ascending node written to the output vector: zero by
definition on the degenerate branch, otherwise an arccosine passed through
the wrap loop. -/
noncomputable def longitudeOfAscendingNodeOutput
    (usm : UnifiedStateModelElements) : ℝ :=
  if raanDegenerateCondition usm then 0
  else
    addTwoPiWhileNegative (Real.arccos
      ((usm.epsilon1Quaternion * usm.etaQuaternion -
        usm.epsilon2Quaternion * usm.epsilon3Quaternion) /
      Real.sqrt ((usm.epsilon1Quaternion * usm.epsilon1Quaternion +
          usm.epsilon2Quaternion * usm.epsilon2Quaternion) *
        (usm.etaQuaternion * usm.etaQuaternion +
          usm.epsilon3Quaternion * usm.epsilon3Quaternion))))

/-- The true anomaly written on the non-circular branch. -/
noncomputable def trueAnomalyOutput (usm : UnifiedStateModelElements) : ℝ :=
  addTwoPiWhileNegative (Real.arccos
    ((ve2 usm - usm.CHodograph) / RHodographElementOut usm))

/-- `convertUnifiedStateModelToKeplerianElements` of the source.  On the
pure-retrograde branch the source prints a message to `std::cerr` and returns
the freshly zero-initialised output vector, which the embedding renders as
`zeroKeplerianElements`; it never throws.  All other lines are translated
one-to-one through the named local values above, with the `while`-wrap loops
rendered by `addTwoPiWhileNegative`. -/
noncomputable def convertUnifiedStateModelToKeplerianElements
    (unifiedStateModelElements : UnifiedStateModelElements)
    (centralBodyGravitationalParameter : ℝ) : KeplerianElements :=
  if usmSingularityCondition unifiedStateModelElements then
    zeroKeplerianElements
  else if |RHodographElementOut unifiedStateModelElements| < singularityTolerance then
    { semiMajorAxis :=
        semiMajorAxisOutput unifiedStateModelElements centralBodyGravitationalParameter
      eccentricity := eccentricityOutput unifiedStateModelElements
      inclination := inclinationOutput unifiedStateModelElements
      longitudeOfAscendingNode := longitudeOfAscendingNodeOutput unifiedStateModelElements
      argumentOfPeriapsis := 0
      trueAnomaly := addTwoPiWhileNegative
        (lambdaFromSineAndCosine unifiedStateModelElements -
          longitudeOfAscendingNodeOutput unifiedStateModelElements) }
  else
    { semiMajorAxis :=
        semiMajorAxisOutput unifiedStateModelElements centralBodyGravitationalParameter
      eccentricity := eccentricityOutput unifiedStateModelElements
      inclination := inclinationOutput unifiedStateModelElements
      longitudeOfAscendingNode := longitudeOfAscendingNodeOutput unifiedStateModelElements
      argumentOfPeriapsis := addTwoPiWhileNegative
        (lambdaFromSineAndCosine unifiedStateModelElements -
          longitudeOfAscendingNodeOutput unifiedStateModelElements -
          trueAnomalyOutput unifiedStateModelElements)
      trueAnomaly := trueAnomalyOutput unifiedStateModelElements }

/-! ### Element indices and vector bounds

The index constants come from `stateVectorIndices.h`, which is not among the
sources at hand; they are modelled from the specification's ordered data
model. -/

/-- Modelled from the spec: the fixed number of components of the
`basic_mathematics::Vector6d` type used for both state vectors, which the
specification and the claim describe as a fixed six-component vector. -/
def vector6dSize : ℕ := 6

/-- Modelled from the spec: index of the semi-major axis, the first entry of
the specification's ordered Keplerian tuple (`stateVectorIndices.h` is not in
the sources). -/
def semiMajorAxisIndex : ℕ := 0

/-- Modelled from the spec: index of the semi-latus rectum, which per the
specification shares the first slot with the semi-major axis (the two are
mutually exclusive depending on regime). -/
def semiLatusRectumIndex : ℕ := 0

/-- Modelled from the spec: index of the eccentricity, second entry of the
ordered Keplerian tuple. -/
def eccentricityIndex : ℕ := 1

/-- Modelled from the spec: index of the inclination, third entry of the
ordered Keplerian tuple. -/
def inclinationIndex : ℕ := 2

/-- Modelled from the spec: index of the right ascension of the ascending
node, fourth entry of the ordered Keplerian tuple. -/
def longitudeOfAscendingNodeIndex : ℕ := 3

/-- Modelled from the spec: index of the argument of periapsis, fifth entry
of the ordered Keplerian tuple. -/
def argumentOfPeriapsisIndex : ℕ := 4

/-- Modelled from the spec: index of the true anomaly, sixth entry of the
ordered Keplerian tuple. -/
def trueAnomalyIndex : ℕ := 5

/-- Modelled from the spec: index of the C hodograph element, first entry of
the specification's ordered USM 7-tuple (C, Rf1, Rf2, epsilon1, epsilon2,
epsilon3, eta). -/
def CHodographIndex : ℕ := 0

/-- Modelled from the spec: index of the Rf1 hodograph element. -/
def Rf1HodographIndex : ℕ := 1

/-- Modelled from the spec: index of the Rf2 hodograph element. -/
def Rf2HodographIndex : ℕ := 2

/-- Modelled from the spec: index of the epsilon1 quaternion component. -/
def epsilon1QuaternionIndex : ℕ := 3

/-- Modelled from the spec: index of the epsilon2 quaternion component. -/
def epsilon2QuaternionIndex : ℕ := 4

/-- Modelled from the spec: index of the epsilon3 quaternion component. -/
def epsilon3QuaternionIndex : ℕ := 5

/-- Modelled from the spec: index of the eta quaternion component, seventh
entry of the ordered USM 7-tuple. -/
def etaQuaternionIndex : ℕ := 6

/-- The indices at which `convertKeplerianToUnifiedStateModelElements` reads
its `Vector6d` input or writes its `Vector6d` output, as listed in the
source. -/
def keplerianToUsmAccessedIndices : List ℕ :=
  [inclinationIndex, eccentricityIndex, semiLatusRectumIndex, semiMajorAxisIndex,
   longitudeOfAscendingNodeIndex, argumentOfPeriapsisIndex, trueAnomalyIndex,
   CHodographIndex, Rf1HodographIndex, Rf2HodographIndex,
   epsilon1QuaternionIndex, epsilon2QuaternionIndex, epsilon3QuaternionIndex,
   etaQuaternionIndex]

/-- The indices at which `convertUnifiedStateModelToKeplerianElements` reads
its `Vector6d` input or writes its `Vector6d` output, as listed in the
source. -/
def usmToKeplerianAccessedIndices : List ℕ :=
  [epsilon3QuaternionIndex, etaQuaternionIndex, Rf1HodographIndex,
   Rf2HodographIndex, CHodographIndex, epsilon1QuaternionIndex,
   epsilon2QuaternionIndex, eccentricityIndex, semiLatusRectumIndex,
   semiMajorAxisIndex, inclinationIndex, longitudeOfAscendingNodeIndex,
   argumentOfPeriapsisIndex, trueAnomalyIndex]

/-- The size arguments passed to `Vector6d::Zero` by the two conversions:
`Zero( 7 )` for the USM output and `Zero( 6 )` for the Keplerian output. -/
def zeroConstructionSizes : List ℕ := [7, 6]

/-- The concrete input of the C4 counterexample: a circular pure-prograde
orbit whose quaternion carries a tiny negative epsilon3, so that the
auxiliary longitude comes out a hair below zero. -/
def c4Input : UnifiedStateModelElements :=
  { CHodograph := 1, Rf1Hodograph := 0, Rf2Hodograph := 0,
    epsilon1Quaternion := 0, epsilon2Quaternion := 0,
    epsilon3Quaternion := -(1e-17), etaQuaternion := 1 }

/-- Claim C1 (counterexample input): an elliptical orbit with true anomaly
`3 pi / 2`, outside the arccosine-recoverable range. -/
noncomputable def c1Input : KeplerianElements :=
  { semiMajorAxis := 1, eccentricity := 1 / 2, inclination := π / 2,
    longitudeOfAscendingNode := 0, argumentOfPeriapsis := 0,
    trueAnomaly := 3 * π / 2 }

/-- Claim C1 (witness input): the same orbit as `c1Input` but with true
anomaly `pi / 2`, inside the recoverable range. -/
noncomputable def c1WitnessInput : KeplerianElements :=
  { semiMajorAxis := 1, eccentricity := 1 / 2, inclination := π / 2,
    longitudeOfAscendingNode := 0, argumentOfPeriapsis := 0,
    trueAnomaly := π / 2 }

/-! ### Basic facts about the tolerance, the wrap loop and `atan2` -/

theorem singularityTolerance_pos : 0 < singularityTolerance := by
  norm_num [singularityTolerance]

theorem addTwoPiWhileNegative_of_le {x : ℝ} (h : -singularityTolerance ≤ x) :
    addTwoPiWhileNegative x = x :=
  if_pos h

/-- The wrap function adds a non-negative whole number of turns. -/
theorem addTwoPiWhileNegative_exists_int (x : ℝ) :
    ∃ n : ℤ, 0 ≤ n ∧ addTwoPiWhileNegative x = x + n * (2 * π) := by
  unfold addTwoPiWhileNegative
  split
  · exact ⟨0, le_refl 0, by simp⟩
  · rename_i h
    push_neg at h
    refine ⟨⌈(-singularityTolerance - x) / (2 * π)⌉, ?_, by ring⟩
    have h2π : 0 < 2 * π := by positivity
    have hpos : 0 < (-singularityTolerance - x) / (2 * π) :=
      div_pos (by linarith) h2π
    exact (Int.ceil_pos.mpr hpos).le

/-- The wrap function's result is at least `-singularityTolerance`: this is
the loop's exit condition. -/
theorem le_addTwoPiWhileNegative (x : ℝ) :
    -singularityTolerance ≤ addTwoPiWhileNegative x := by
  unfold addTwoPiWhileNegative
  split
  · assumption
  · rename_i h
    push_neg at h
    have h2π : 0 < 2 * π := by positivity
    have hle := Int.le_ceil ((-singularityTolerance - x) / (2 * π))
    rw [div_le_iff₀ h2π] at hle
    nlinarith

/-- When the loop runs at least once, the result came from below the exit
bound, hence lies below `-singularityTolerance + 2 pi`. -/
theorem addTwoPiWhileNegative_lt {x : ℝ} (h : x < -singularityTolerance) :
    addTwoPiWhileNegative x < -singularityTolerance + 2 * π := by
  unfold addTwoPiWhileNegative
  rw [if_neg (by linarith)]
  have h2π : 0 < 2 * π := by positivity
  have hne : (2 * π) ≠ 0 := ne_of_gt h2π
  have hceil := Int.ceil_lt_add_one ((-singularityTolerance - x) / (2 * π))
  have hmul := mul_lt_mul_of_pos_right hceil h2π
  have hdm : ((-singularityTolerance - x) / (2 * π)) * (2 * π) =
      -singularityTolerance - x := div_mul_cancel₀ _ hne
  nlinarith

/-- Faithfulness of the closed form: `addTwoPiWhileNegative` satisfies the
defining equation of the source's `while` loop. -/
theorem addTwoPiWhileNegative_loopEquation (x : ℝ) :
    addTwoPiWhileNegative x =
      if x < -singularityTolerance then addTwoPiWhileNegative (x + 2 * π) else x := by
  rcases lt_or_le x (-singularityTolerance) with hx | hx
  · rw [if_pos hx]
    have h2π : 0 < 2 * π := by positivity
    have hne : (2 * π) ≠ 0 := ne_of_gt h2π
    rcases lt_or_le (x + 2 * π) (-singularityTolerance) with hx2 | hx2
    · unfold addTwoPiWhileNegative
      rw [if_neg (by linarith), if_neg (by linarith)]
      have harg : (-singularityTolerance - x) / (2 * π) =
          (-singularityTolerance - (x + 2 * π)) / (2 * π) + 1 := by
        field_simp
        ring
      rw [harg, Int.ceil_add_one]
      push_cast
      ring
    · rw [addTwoPiWhileNegative_of_le hx2]
      unfold addTwoPiWhileNegative
      rw [if_neg (by linarith)]
      have hone : ⌈(-singularityTolerance - x) / (2 * π)⌉ = 1 := by
        rw [Int.ceil_eq_iff]
        constructor
        · push_cast
          rw [lt_div_iff₀ h2π]
          linarith
        · push_cast
          rw [div_le_iff₀ h2π]
          linarith
      rw [hone]
      push_cast
      ring
  · rw [if_neg (not_lt.mpr hx), addTwoPiWhileNegative_of_le hx]

theorem atan2_le_pi (y x : ℝ) : atan2 y x ≤ π :=
  Complex.arg_le_pi _

theorem neg_pi_lt_atan2 (y x : ℝ) : -π < atan2 y x :=
  Complex.neg_pi_lt_arg _

/-- On the unit circle, `atan2` recovers the cosine. -/
theorem cos_atan2 {y x : ℝ} (h : x * x + y * y = 1) :
    Real.cos (atan2 y x) = x := by
  have habs : Complex.abs { re := x, im := y } = 1 := by
    rw [Complex.abs_apply, Complex.normSq_mk, h, Real.sqrt_one]
  have hz : ({ re := x, im := y } : ℂ) ≠ 0 := by
    intro hz
    rw [hz] at habs
    simp at habs
  rw [atan2, Complex.cos_arg hz, habs]
  simp

/-- On the unit circle, `atan2` recovers the sine. -/
theorem sin_atan2 {y x : ℝ} (h : x * x + y * y = 1) :
    Real.sin (atan2 y x) = y := by
  have habs : Complex.abs { re := x, im := y } = 1 := by
    rw [Complex.abs_apply, Complex.normSq_mk, h, Real.sqrt_one]
  rw [atan2, Complex.sin_arg, habs]
  simp

/-- `atan2` applied to the sine and cosine of an angle returns that angle up
to a whole number of turns. -/
theorem atan2_sin_cos_eq_add_int (θ : ℝ) :
    ∃ n : ℤ, atan2 (Real.sin θ) (Real.cos θ) = θ + n * (2 * π) := by
  have hunit : Real.cos θ * Real.cos θ + Real.sin θ * Real.sin θ = 1 := by
    nlinarith [Real.sin_sq_add_cos_sq θ]
  have hc := cos_atan2 hunit
  have hs := sin_atan2 hunit
  have h1 : Real.cos (atan2 (Real.sin θ) (Real.cos θ) - θ) = 1 := by
    rw [Real.cos_sub, hc, hs]
    nlinarith [Real.sin_sq_add_cos_sq θ]
  obtain ⟨n, hn⟩ := (Real.cos_eq_one_iff _).mp h1
  exact ⟨n, by linarith⟩

/-! ### Shared evaluation helpers -/

/-- Evaluation of the Keplerian-to-USM conversion at the trivial circular
equatorial orbit, shared by several witnesses. -/
theorem keplerianToUsm_eval_basic :
    convertKeplerianToUnifiedStateModelElements
      { semiMajorAxis := 1, eccentricity := 0, inclination := 0,
        longitudeOfAscendingNode := 0, argumentOfPeriapsis := 0, trueAnomaly := 0 } 1 =
      .ok { CHodograph := 1, Rf1Hodograph := 0, Rf2Hodograph := 0,
            epsilon1Quaternion := 0, epsilon2Quaternion := 0,
            epsilon3Quaternion := 0, etaQuaternion := 1 } := by
  unfold convertKeplerianToUnifiedStateModelElements
  rw [if_neg (by push_neg; exact ⟨le_refl 0, Real.pi_nonneg⟩)]
  unfold keplerianToUsmBody
  norm_num [singularityTolerance, Real.sqrt_one]

/-! ### Claim C3 -/

/-- Claim C3 (counterexample): the eta accesses at `etaQuaternionIndex` and
the `Vector6d::Zero( 7 )` construction do not stay within the bounds of the
fixed six-component `Vector6d` type. -/
theorem claim_C3_counterexample :
    ¬ etaQuaternionIndex < vector6dSize ∧ (7 : ℕ) ≠ vector6dSize := by
  decide

/-- Claim C3 (amended): every index the two conversions read or write other
than `etaQuaternionIndex` is within the bounds of the six-component
`Vector6d`, but the eta accesses at index 6 are out of bounds and the
`Vector6d::Zero( 7 )` construction requests a size different from the fixed
six. -/
theorem claim_C3_boundsAmended :
    (∀ i ∈ keplerianToUsmAccessedIndices,
      i = etaQuaternionIndex ∨ i < vector6dSize) ∧
    (∀ i ∈ usmToKeplerianAccessedIndices,
      i = etaQuaternionIndex ∨ i < vector6dSize) ∧
    ¬ etaQuaternionIndex < vector6dSize ∧
    ¬ (7 : ℕ) = vector6dSize := by
  decide

/-- Claim C3 (witness for the amended theorem): the inclination index is
among the accessed indices and is within bounds. -/
theorem claim_C3_boundsAmended_witness :
    inclinationIndex ∈ keplerianToUsmAccessedIndices ∧
      (inclinationIndex = etaQuaternionIndex ∨ inclinationIndex < vector6dSize) :=
  ⟨by decide, claim_C3_boundsAmended.1 inclinationIndex (by decide)⟩

/-! ### Claim C5 -/

/-- Claim C5: for every Keplerian input whose inclination lies outside
`[0, pi]`, the Keplerian-to-USM conversion fails with an Invalid-Input error
that records the offending inclination value, and no USM elements are
returned. -/
theorem claim_C5_inclinationGuard (k : KeplerianElements) (mu : ℝ)
    (h : k.inclination < 0 ∨ k.inclination > π) :
    convertKeplerianToUnifiedStateModelElements k mu =
      .error (.inclinationOutOfRange k.inclination) := by
  unfold convertKeplerianToUnifiedStateModelElements
  rw [if_pos h]

/-- Claim C5 (witness): at inclination `-1` the conversion returns exactly
the inclination error carrying `-1`. -/
theorem claim_C5_inclinationGuard_witness :
    ((-1 : ℝ) < 0 ∨ (-1 : ℝ) > π) ∧
    convertKeplerianToUnifiedStateModelElements
      { semiMajorAxis := 1, eccentricity := 0, inclination := -1,
        longitudeOfAscendingNode := 0, argumentOfPeriapsis := 0, trueAnomaly := 0 } 1 =
      .error (.inclinationOutOfRange (-1)) :=
  ⟨Or.inl (by norm_num),
    claim_C5_inclinationGuard _ 1 (Or.inl (by norm_num))⟩

/-! ### Claim C2 -/

/-- Claim C2 (counterexample): at a pure-retrograde USM input (epsilon3 and
eta both zero) the conversion does not fail: it returns the all-zero
Keplerian vector to the caller. -/
theorem claim_C2_counterexample :
    convertUnifiedStateModelToKeplerianElements
      { CHodograph := 1, Rf1Hodograph := 0, Rf2Hodograph := 0,
        epsilon1Quaternion := 1, epsilon2Quaternion := 0,
        epsilon3Quaternion := 0, etaQuaternion := 0 } 1 =
      zeroKeplerianElements := by
  unfold convertUnifiedStateModelToKeplerianElements
  rw [if_pos (by norm_num [usmSingularityCondition, singularityTolerance])]

/-- Claim C2 (amended): for every USM input whose epsilon3 and eta components
are both within the singularity tolerance of zero, the conversion prints a
pure-retrograde diagnostic to standard error and returns the all-zero
Keplerian element vector to the caller; no exception is raised. -/
theorem claim_C2_singularReturnsZero (usm : UnifiedStateModelElements) (mu : ℝ)
    (h : usmSingularityCondition usm) :
    convertUnifiedStateModelToKeplerianElements usm mu = zeroKeplerianElements := by
  unfold convertUnifiedStateModelToKeplerianElements
  rw [if_pos h]

/-- Claim C2 (witness): a concrete pure-retrograde input on which the
conversion returns the zero vector. -/
theorem claim_C2_singularReturnsZero_witness :
    usmSingularityCondition
      { CHodograph := 2, Rf1Hodograph := 0, Rf2Hodograph := 0,
        epsilon1Quaternion := 1, epsilon2Quaternion := 0,
        epsilon3Quaternion := 0, etaQuaternion := 0 } ∧
    convertUnifiedStateModelToKeplerianElements
      { CHodograph := 2, Rf1Hodograph := 0, Rf2Hodograph := 0,
        epsilon1Quaternion := 1, epsilon2Quaternion := 0,
        epsilon3Quaternion := 0, etaQuaternion := 0 } 1 =
      zeroKeplerianElements :=
  ⟨by norm_num [usmSingularityCondition, singularityTolerance],
    claim_C2_singularReturnsZero _ 1
      (by norm_num [usmSingularityCondition, singularityTolerance])⟩

/-! ### Claim C6 -/

/-- Claim C6 (counterexample): at eccentricity `-1/2` (inclination in range)
the Keplerian-to-USM conversion does not fail: it returns USM elements
computed from the negative eccentricity. -/
theorem claim_C6_counterexample :
    convertKeplerianToUnifiedStateModelElements
      { semiMajorAxis := 4 / 3, eccentricity := -(1 / 2), inclination := 0,
        longitudeOfAscendingNode := 0, argumentOfPeriapsis := 0, trueAnomaly := 0 } 1 =
      .ok { CHodograph := 1, Rf1Hodograph := 0, Rf2Hodograph := -(1 / 2),
            epsilon1Quaternion := 0, epsilon2Quaternion := 0,
            epsilon3Quaternion := 0, etaQuaternion := 1 } := by
  unfold convertKeplerianToUnifiedStateModelElements
  rw [if_neg (by push_neg; exact ⟨le_refl 0, Real.pi_nonneg⟩)]
  unfold keplerianToUsmBody
  norm_num [singularityTolerance]
  intro h
  rw [abs_of_nonneg (by norm_num : (0 : ℝ) ≤ 3 / 2)] at h
  norm_num at h

/-- Claim C6 (amended): the Keplerian-to-USM conversion performs no
eccentricity validation: for every input with negative eccentricity (and
inclination inside `[0, pi]`) it succeeds and returns the USM elements
computed from the out-of-domain eccentricity. -/
theorem claim_C6_negativeEccentricityAccepted (k : KeplerianElements) (mu : ℝ)
    (_he : k.eccentricity < 0) (h0 : 0 ≤ k.inclination) (hpi : k.inclination ≤ π) :
    convertKeplerianToUnifiedStateModelElements k mu =
      .ok (keplerianToUsmBody k mu) := by
  unfold convertKeplerianToUnifiedStateModelElements
  rw [if_neg (by push_neg; exact ⟨h0, hpi⟩)]

/-- Claim C6 (witness): a concrete negative-eccentricity input accepted by
the conversion. -/
theorem claim_C6_negativeEccentricityAccepted_witness :
    ((-(1 / 4) : ℝ) < 0) ∧
    convertKeplerianToUnifiedStateModelElements
      { semiMajorAxis := 2, eccentricity := -(1 / 4), inclination := 0,
        longitudeOfAscendingNode := 0, argumentOfPeriapsis := 0, trueAnomaly := 0 } 1 =
      .ok (keplerianToUsmBody
        { semiMajorAxis := 2, eccentricity := -(1 / 4), inclination := 0,
          longitudeOfAscendingNode := 0, argumentOfPeriapsis := 0, trueAnomaly := 0 } 1) :=
  ⟨by norm_num,
    claim_C6_negativeEccentricityAccepted _ 1 (by norm_num) (le_refl 0) Real.pi_nonneg⟩

/-! ### Claim C7 -/

/-- Claim C7: for every Keplerian input accepted by the Keplerian-to-USM
conversion, the four quaternion components of the result form a unit
quaternion in exact real arithmetic. -/
theorem claim_C7_unitQuaternion (k : KeplerianElements) (mu : ℝ)
    (usm : UnifiedStateModelElements)
    (h : convertKeplerianToUnifiedStateModelElements k mu = .ok usm) :
    usm.epsilon1Quaternion ^ 2 + usm.epsilon2Quaternion ^ 2 +
      usm.epsilon3Quaternion ^ 2 + usm.etaQuaternion ^ 2 = 1 := by
  unfold convertKeplerianToUnifiedStateModelElements at h
  rcases Classical.em (k.inclination < 0 ∨ k.inclination > π) with hg | hg
  · rw [if_pos hg] at h
    exact absurd h (by simp)
  · rw [if_neg hg] at h
    have hbody : keplerianToUsmBody k mu = usm := by
      injection h
    subst hbody
    unfold keplerianToUsmBody
    simp only
    nlinarith [Real.sin_sq_add_cos_sq (0.5 * k.inclination),
      Real.sin_sq_add_cos_sq (0.5 * (k.longitudeOfAscendingNode -
        (k.argumentOfPeriapsis + k.trueAnomaly))),
      Real.sin_sq_add_cos_sq (0.5 * (k.longitudeOfAscendingNode +
        (k.argumentOfPeriapsis + k.trueAnomaly)))]

/-- Claim C7 (witness): the unit-quaternion identity at a concrete accepted
input. -/
theorem claim_C7_unitQuaternion_witness :
    (0 : ℝ) ^ 2 + (0 : ℝ) ^ 2 + (0 : ℝ) ^ 2 + (1 : ℝ) ^ 2 = 1 :=
  claim_C7_unitQuaternion _ 1 _ keplerianToUsm_eval_basic

/-! ### Claim C8 -/

/-- Claim C8: for every accepted Keplerian input, the hodograph outputs
satisfy `C = sqrt(mu / p)` — with `p` the supplied semi-latus rectum on the
parabolic branch and `a (1 - e^2)` otherwise — together with
`Rf1 = -e C sin(RAAN + omega)` and `Rf2 = e C cos(RAAN + omega)`. -/
theorem claim_C8_hodographFormulas (k : KeplerianElements) (mu : ℝ)
    (usm : UnifiedStateModelElements)
    (h : convertKeplerianToUnifiedStateModelElements k mu = .ok usm) :
    usm.CHodograph = Real.sqrt (mu /
      (if |k.eccentricity - 1| < singularityTolerance then k.semiMajorAxis
       else k.semiMajorAxis * (1 - k.eccentricity ^ 2))) ∧
    usm.Rf1Hodograph = -(k.eccentricity * usm.CHodograph) *
      Real.sin (k.longitudeOfAscendingNode + k.argumentOfPeriapsis) ∧
    usm.Rf2Hodograph = k.eccentricity * usm.CHodograph *
      Real.cos (k.longitudeOfAscendingNode + k.argumentOfPeriapsis) := by
  unfold convertKeplerianToUnifiedStateModelElements at h
  rcases Classical.em (k.inclination < 0 ∨ k.inclination > π) with hg | hg
  · rw [if_pos hg] at h
    exact absurd h (by simp)
  · rw [if_neg hg] at h
    have hbody : keplerianToUsmBody k mu = usm := by
      injection h
    subst hbody
    unfold keplerianToUsmBody
    simp only
    refine ⟨?_, trivial, trivial⟩
    rw [show k.semiMajorAxis * (1 - k.eccentricity ^ 2) =
      k.semiMajorAxis * (1 - k.eccentricity * k.eccentricity) by ring]
    split
    · rfl
    · rfl

/-- Claim C8 (witness): the hodograph formulas at a concrete accepted
input. -/
theorem claim_C8_hodographFormulas_witness :
    (1 : ℝ) = Real.sqrt (1 /
      (if |(0 : ℝ) - 1| < singularityTolerance then (1 : ℝ)
       else 1 * (1 - (0 : ℝ) ^ 2))) ∧
    (0 : ℝ) = -((0 : ℝ) * 1) * Real.sin ((0 : ℝ) + 0) ∧
    (0 : ℝ) = (0 : ℝ) * 1 * Real.cos ((0 : ℝ) + 0) :=
  claim_C8_hodographFormulas _ 1 _ keplerianToUsm_eval_basic

/-! ### Range facts about the USM-to-Keplerian output fields -/

theorem neg_tolerance_le_of_nonneg {x : ℝ} (h : 0 ≤ x) :
    -singularityTolerance ≤ x :=
  le_trans (by linarith [singularityTolerance_pos]) h

/-- The branch structure of the USM-to-Keplerian conversion outside the
pure-retrograde singularity. -/
theorem usmToKeplerian_eq_of_not_singular (usm : UnifiedStateModelElements)
    (mu : ℝ) (h : ¬ usmSingularityCondition usm) :
    convertUnifiedStateModelToKeplerianElements usm mu =
      if |RHodographElementOut usm| < singularityTolerance then
        { semiMajorAxis := semiMajorAxisOutput usm mu
          eccentricity := eccentricityOutput usm
          inclination := inclinationOutput usm
          longitudeOfAscendingNode := longitudeOfAscendingNodeOutput usm
          argumentOfPeriapsis := 0
          trueAnomaly := addTwoPiWhileNegative
            (lambdaFromSineAndCosine usm - longitudeOfAscendingNodeOutput usm) }
      else
        { semiMajorAxis := semiMajorAxisOutput usm mu
          eccentricity := eccentricityOutput usm
          inclination := inclinationOutput usm
          longitudeOfAscendingNode := longitudeOfAscendingNodeOutput usm
          argumentOfPeriapsis := addTwoPiWhileNegative
            (lambdaFromSineAndCosine usm - longitudeOfAscendingNodeOutput usm -
              trueAnomalyOutput usm)
          trueAnomaly := trueAnomalyOutput usm } := by
  unfold convertUnifiedStateModelToKeplerianElements
  rw [if_neg h]

theorem longitudeOfAscendingNodeOutput_nonneg (usm : UnifiedStateModelElements) :
    0 ≤ longitudeOfAscendingNodeOutput usm := by
  unfold longitudeOfAscendingNodeOutput
  split
  · exact le_refl 0
  · rw [addTwoPiWhileNegative_of_le
      (neg_tolerance_le_of_nonneg (Real.arccos_nonneg _))]
    exact Real.arccos_nonneg _

theorem longitudeOfAscendingNodeOutput_le_pi (usm : UnifiedStateModelElements) :
    longitudeOfAscendingNodeOutput usm ≤ π := by
  unfold longitudeOfAscendingNodeOutput
  split
  · exact Real.pi_nonneg
  · rw [addTwoPiWhileNegative_of_le
      (neg_tolerance_le_of_nonneg (Real.arccos_nonneg _))]
    exact Real.arccos_le_pi _

/-- On the non-circular branch the true-anomaly wrap loop never runs: the
arccosine is already non-negative. -/
theorem trueAnomalyOutput_eq (usm : UnifiedStateModelElements) :
    trueAnomalyOutput usm =
      Real.arccos ((ve2 usm - usm.CHodograph) / RHodographElementOut usm) := by
  unfold trueAnomalyOutput
  exact addTwoPiWhileNegative_of_le
    (neg_tolerance_le_of_nonneg (Real.arccos_nonneg _))

/-- The wrap loop's output stays below a full turn whenever its input does
not exceed `pi + 1`. -/
theorem addTwoPiWhileNegative_lt_two_pi {x : ℝ} (h : x ≤ π + 1) :
    addTwoPiWhileNegative x < 2 * π := by
  rcases le_or_lt (-singularityTolerance) x with hx | hx
  · rw [addTwoPiWhileNegative_of_le hx]
    nlinarith [Real.pi_gt_three]
  · have := addTwoPiWhileNegative_lt hx
    nlinarith [singularityTolerance_pos]

/-! ### Claim C9 -/

/-- Claim C9: whenever the USM-to-Keplerian conversion computes Keplerian
elements (non-singular input), the inclination field equals
`acos(1 - 2 (epsilon1^2 + epsilon2^2))` and, the quaternion components
being bounded, lies in `[0, pi]`. -/
theorem claim_C9_inclinationFormula (usm : UnifiedStateModelElements) (mu : ℝ)
    (h : ¬ usmSingularityCondition usm)
    (_hsq : usm.epsilon1Quaternion ^ 2 + usm.epsilon2Quaternion ^ 2 ≤ 1) :
    (convertUnifiedStateModelToKeplerianElements usm mu).inclination =
      Real.arccos (1 - 2 * (usm.epsilon1Quaternion ^ 2 + usm.epsilon2Quaternion ^ 2)) ∧
    0 ≤ (convertUnifiedStateModelToKeplerianElements usm mu).inclination ∧
    (convertUnifiedStateModelToKeplerianElements usm mu).inclination ≤ π := by
  have hfield : (convertUnifiedStateModelToKeplerianElements usm mu).inclination =
      inclinationOutput usm := by
    rw [usmToKeplerian_eq_of_not_singular usm mu h]
    split <;> rfl
  rw [hfield]
  unfold inclinationOutput
  refine ⟨?_, Real.arccos_nonneg _, Real.arccos_le_pi _⟩
  rw [show usm.epsilon1Quaternion * usm.epsilon1Quaternion +
      usm.epsilon2Quaternion * usm.epsilon2Quaternion =
      usm.epsilon1Quaternion ^ 2 + usm.epsilon2Quaternion ^ 2 by ring]

/-- Claim C9 (witness): the inclination formula and range at a concrete
non-singular input. -/
theorem claim_C9_inclinationFormula_witness :
    (convertUnifiedStateModelToKeplerianElements
      { CHodograph := 1, Rf1Hodograph := 0, Rf2Hodograph := 0,
        epsilon1Quaternion := 0, epsilon2Quaternion := 0,
        epsilon3Quaternion := 0, etaQuaternion := 1 } 1).inclination =
      Real.arccos (1 - 2 * ((0 : ℝ) ^ 2 + (0 : ℝ) ^ 2)) ∧
    0 ≤ (convertUnifiedStateModelToKeplerianElements
      { CHodograph := 1, Rf1Hodograph := 0, Rf2Hodograph := 0,
        epsilon1Quaternion := 0, epsilon2Quaternion := 0,
        epsilon3Quaternion := 0, etaQuaternion := 1 } 1).inclination ∧
    (convertUnifiedStateModelToKeplerianElements
      { CHodograph := 1, Rf1Hodograph := 0, Rf2Hodograph := 0,
        epsilon1Quaternion := 0, epsilon2Quaternion := 0,
        epsilon3Quaternion := 0, etaQuaternion := 1 } 1).inclination ≤ π :=
  claim_C9_inclinationFormula _ 1
    (by norm_num [usmSingularityCondition, singularityTolerance])
    (by norm_num)

/-! ### Claim C10 -/

/-- Claim C10: whenever the USM-to-Keplerian conversion computes Keplerian
elements, the right ascension of the ascending node lies in `[0, pi]`: it is
zero on the degenerate branch and an arccosine otherwise, so the
add-two-pi-while-negative wrap loop never executes and values in
`(pi, 2 pi)` are never produced. -/
theorem claim_C10_raanRange (usm : UnifiedStateModelElements) (mu : ℝ)
    (h : ¬ usmSingularityCondition usm) :
    (raanDegenerateCondition usm →
      (convertUnifiedStateModelToKeplerianElements usm mu).longitudeOfAscendingNode = 0) ∧
    0 ≤ (convertUnifiedStateModelToKeplerianElements usm mu).longitudeOfAscendingNode ∧
    (convertUnifiedStateModelToKeplerianElements usm mu).longitudeOfAscendingNode ≤ π := by
  have hfield : (convertUnifiedStateModelToKeplerianElements usm mu).longitudeOfAscendingNode =
      longitudeOfAscendingNodeOutput usm := by
    rw [usmToKeplerian_eq_of_not_singular usm mu h]
    split <;> rfl
  rw [hfield]
  refine ⟨?_, longitudeOfAscendingNodeOutput_nonneg usm,
    longitudeOfAscendingNodeOutput_le_pi usm⟩
  intro hdeg
  unfold longitudeOfAscendingNodeOutput
  rw [if_pos hdeg]

/-- Claim C10 (witness): the RAAN facts at a concrete non-singular input. -/
theorem claim_C10_raanRange_witness :
    (raanDegenerateCondition
      { CHodograph := 3, Rf1Hodograph := 0, Rf2Hodograph := 0,
        epsilon1Quaternion := 0, epsilon2Quaternion := 0,
        epsilon3Quaternion := 0, etaQuaternion := 1 } →
      (convertUnifiedStateModelToKeplerianElements
        { CHodograph := 3, Rf1Hodograph := 0, Rf2Hodograph := 0,
          epsilon1Quaternion := 0, epsilon2Quaternion := 0,
          epsilon3Quaternion := 0, etaQuaternion := 1 } 1).longitudeOfAscendingNode = 0) ∧
    0 ≤ (convertUnifiedStateModelToKeplerianElements
      { CHodograph := 3, Rf1Hodograph := 0, Rf2Hodograph := 0,
        epsilon1Quaternion := 0, epsilon2Quaternion := 0,
        epsilon3Quaternion := 0, etaQuaternion := 1 } 1).longitudeOfAscendingNode ∧
    (convertUnifiedStateModelToKeplerianElements
      { CHodograph := 3, Rf1Hodograph := 0, Rf2Hodograph := 0,
        epsilon1Quaternion := 0, epsilon2Quaternion := 0,
        epsilon3Quaternion := 0, etaQuaternion := 1 } 1).longitudeOfAscendingNode ≤ π :=
  claim_C10_raanRange _ 1
    (by norm_num [usmSingularityCondition, singularityTolerance])

/-! ### Claim C4 (amended theorem) -/

/-- Claim C4 (amended): whenever the USM-to-Keplerian conversion computes
Keplerian elements, each angle field (RAAN, argument of periapsis, true
anomaly) lies in `[-singularityTolerance, 2 pi)`: the wrap loops stop as
soon as a value is at least `-singularityTolerance`, so outputs can fall a
tolerance below zero, but never reach a full turn. -/
theorem claim_C4_angleRangesAmended (usm : UnifiedStateModelElements) (mu : ℝ)
    (h : ¬ usmSingularityCondition usm) :
    (-singularityTolerance ≤
        (convertUnifiedStateModelToKeplerianElements usm mu).longitudeOfAscendingNode ∧
      (convertUnifiedStateModelToKeplerianElements usm mu).longitudeOfAscendingNode < 2 * π) ∧
    (-singularityTolerance ≤
        (convertUnifiedStateModelToKeplerianElements usm mu).argumentOfPeriapsis ∧
      (convertUnifiedStateModelToKeplerianElements usm mu).argumentOfPeriapsis < 2 * π) ∧
    (-singularityTolerance ≤
        (convertUnifiedStateModelToKeplerianElements usm mu).trueAnomaly ∧
      (convertUnifiedStateModelToKeplerianElements usm mu).trueAnomaly < 2 * π) := by
  rw [usmToKeplerian_eq_of_not_singular usm mu h]
  have hraan0 := longitudeOfAscendingNodeOutput_nonneg usm
  have hraanpi := longitudeOfAscendingNodeOutput_le_pi usm
  have hlam := atan2_le_pi (sineLambda usm) (cosineLambda usm)
  have htol := singularityTolerance_pos
  have hpi := Real.pi_gt_three
  split
  · simp only
    refine ⟨⟨neg_tolerance_le_of_nonneg hraan0, by nlinarith⟩,
      ⟨by nlinarith, by nlinarith⟩, ?_, ?_⟩
    · exact le_addTwoPiWhileNegative _
    · apply addTwoPiWhileNegative_lt_two_pi
      unfold lambdaFromSineAndCosine
      nlinarith
  · simp only
    have hnu0 : 0 ≤ trueAnomalyOutput usm := by
      rw [trueAnomalyOutput_eq]
      exact Real.arccos_nonneg _
    have hnupi : trueAnomalyOutput usm ≤ π := by
      rw [trueAnomalyOutput_eq]
      exact Real.arccos_le_pi _
    refine ⟨⟨neg_tolerance_le_of_nonneg hraan0, by nlinarith⟩, ⟨?_, ?_⟩,
      neg_tolerance_le_of_nonneg hnu0, by nlinarith⟩
    · exact le_addTwoPiWhileNegative _
    · apply addTwoPiWhileNegative_lt_two_pi
      unfold lambdaFromSineAndCosine
      nlinarith

/-- Claim C4 (witness for the amended theorem): the angle ranges at a
concrete non-singular input. -/
theorem claim_C4_angleRangesAmended_witness :
    (-singularityTolerance ≤
        (convertUnifiedStateModelToKeplerianElements
          { CHodograph := 1, Rf1Hodograph := 0, Rf2Hodograph := 0,
            epsilon1Quaternion := 0, epsilon2Quaternion := 0,
            epsilon3Quaternion := 1, etaQuaternion := 0 } 1).longitudeOfAscendingNode ∧
      (convertUnifiedStateModelToKeplerianElements
          { CHodograph := 1, Rf1Hodograph := 0, Rf2Hodograph := 0,
            epsilon1Quaternion := 0, epsilon2Quaternion := 0,
            epsilon3Quaternion := 1, etaQuaternion := 0 } 1).longitudeOfAscendingNode < 2 * π) ∧
    (-singularityTolerance ≤
        (convertUnifiedStateModelToKeplerianElements
          { CHodograph := 1, Rf1Hodograph := 0, Rf2Hodograph := 0,
            epsilon1Quaternion := 0, epsilon2Quaternion := 0,
            epsilon3Quaternion := 1, etaQuaternion := 0 } 1).argumentOfPeriapsis ∧
      (convertUnifiedStateModelToKeplerianElements
          { CHodograph := 1, Rf1Hodograph := 0, Rf2Hodograph := 0,
            epsilon1Quaternion := 0, epsilon2Quaternion := 0,
            epsilon3Quaternion := 1, etaQuaternion := 0 } 1).argumentOfPeriapsis < 2 * π) ∧
    (-singularityTolerance ≤
        (convertUnifiedStateModelToKeplerianElements
          { CHodograph := 1, Rf1Hodograph := 0, Rf2Hodograph := 0,
            epsilon1Quaternion := 0, epsilon2Quaternion := 0,
            epsilon3Quaternion := 1, etaQuaternion := 0 } 1).trueAnomaly ∧
      (convertUnifiedStateModelToKeplerianElements
          { CHodograph := 1, Rf1Hodograph := 0, Rf2Hodograph := 0,
            epsilon1Quaternion := 0, epsilon2Quaternion := 0,
            epsilon3Quaternion := 1, etaQuaternion := 0 } 1).trueAnomaly < 2 * π) :=
  claim_C4_angleRangesAmended _ 1
    (by norm_num [usmSingularityCondition, singularityTolerance])

/-! ### Claim C4 (counterexample) -/

theorem atan2_lt_zero_of_unit {x y : ℝ} (h : x * x + y * y = 1) (hy : y < 0) :
    atan2 y x < 0 := by
  by_contra hle
  push_neg at hle
  have h1 : 0 ≤ Real.sin (atan2 y x) :=
    Real.sin_nonneg_of_nonneg_of_le_pi hle (atan2_le_pi y x)
  rw [sin_atan2 h] at h1
  linarith

/-- Lower bound for `atan2` on the right half of the unit circle from a lower
bound on the sine. -/
theorem neg_le_atan2_of_unit {x y t : ℝ} (h : x * x + y * y = 1) (hx : 0 < x)
    (ht : 0 < t) (_htpi : t ≤ π / 2) (hy : -Real.sin t ≤ y) :
    -t ≤ atan2 y x := by
  by_contra hlt
  push_neg at hlt
  have hgt : -(π / 2) < atan2 y x := by
    by_contra hle2
    push_neg at hle2
    have hb := neg_pi_lt_atan2 y x
    have hcos : Real.cos (atan2 y x) ≤ 0 := by
      rw [← Real.cos_neg]
      apply Real.cos_nonpos_of_pi_div_two_le_of_le
      · linarith
      · linarith
    rw [cos_atan2 h] at hcos
    linarith
  have hmono := Real.strictMonoOn_sin
    (Set.mem_Icc.mpr ⟨by linarith, by linarith⟩)
    (Set.mem_Icc.mpr ⟨by linarith, by linarith⟩) hlt
  rw [sin_atan2 h, Real.sin_neg] at hmono
  linarith

/-- Claim C4 (counterexample): on `c4Input` the conversion returns a strictly
negative true anomaly, outside the claimed `[0, 2 pi)` range. -/
theorem claim_C4_counterexample :
    (convertUnifiedStateModelToKeplerianElements c4Input 1).trueAnomaly < 0 := by
  have hns : ¬ usmSingularityCondition c4Input := by
    norm_num [usmSingularityCondition, singularityTolerance, c4Input]
  rw [usmToKeplerian_eq_of_not_singular c4Input 1 hns]
  have hR : RHodographElementOut c4Input = 0 := by
    unfold RHodographElementOut c4Input
    norm_num
  rw [if_pos (by rw [hR]; norm_num [singularityTolerance])]
  simp only
  have hraan : longitudeOfAscendingNodeOutput c4Input = 0 := by
    unfold longitudeOfAscendingNodeOutput
    rw [if_pos (show raanDegenerateCondition c4Input by
      unfold raanDegenerateCondition
      exact Or.inl (by norm_num [c4Input, singularityTolerance]))]
  have hunit : cosineLambda c4Input * cosineLambda c4Input +
      sineLambda c4Input * sineLambda c4Input = 1 := by
    unfold cosineLambda sineLambda c4Input
    norm_num
  have hcpos : 0 < cosineLambda c4Input := by
    unfold cosineLambda c4Input
    norm_num
  have hsneg : sineLambda c4Input < 0 := by
    unfold sineLambda c4Input
    norm_num
  have htolpos : (0 : ℝ) < singularityTolerance := singularityTolerance_pos
  have htolpi : singularityTolerance ≤ π / 2 := by
    have := Real.pi_gt_three
    norm_num [singularityTolerance]
    linarith
  have hsge : -Real.sin singularityTolerance ≤ sineLambda c4Input := by
    have hsin := Real.sin_gt_sub_cube htolpos (by norm_num [singularityTolerance])
    have hnum : -(singularityTolerance - singularityTolerance ^ 3 / 4) ≤
        sineLambda c4Input := by
      unfold sineLambda c4Input
      norm_num [singularityTolerance]
    linarith
  have hlneg : lambdaFromSineAndCosine c4Input < 0 := by
    unfold lambdaFromSineAndCosine
    exact atan2_lt_zero_of_unit hunit hsneg
  have hlge : -singularityTolerance ≤ lambdaFromSineAndCosine c4Input := by
    unfold lambdaFromSineAndCosine
    exact neg_le_atan2_of_unit hunit hcpos htolpos htolpi hsge
  rw [hraan, sub_zero, addTwoPiWhileNegative_of_le hlge]
  exact hlneg

/-! ### Claim C1: infrastructure

Symbolic values of the seven components computed by the Keplerian-to-USM
body, and the trigonometric facts needed to push them back through the
USM-to-Keplerian direction. -/

theorem body_CHodograph (k : KeplerianElements) (mu : ℝ) :
    (keplerianToUsmBody k mu).CHodograph =
      Real.sqrt (mu / semiLatusRectumInput k) := by
  unfold keplerianToUsmBody semiLatusRectumInput
  simp only
  split <;> rfl

theorem body_CHodograph_nonneg (k : KeplerianElements) (mu : ℝ) :
    0 ≤ (keplerianToUsmBody k mu).CHodograph := by
  rw [body_CHodograph]
  exact Real.sqrt_nonneg _

theorem body_Rf1Hodograph (k : KeplerianElements) (mu : ℝ) :
    (keplerianToUsmBody k mu).Rf1Hodograph =
      -(k.eccentricity * (keplerianToUsmBody k mu).CHodograph) *
        Real.sin (k.longitudeOfAscendingNode + k.argumentOfPeriapsis) := rfl

theorem body_Rf2Hodograph (k : KeplerianElements) (mu : ℝ) :
    (keplerianToUsmBody k mu).Rf2Hodograph =
      k.eccentricity * (keplerianToUsmBody k mu).CHodograph *
        Real.cos (k.longitudeOfAscendingNode + k.argumentOfPeriapsis) := rfl

theorem body_epsilon1 (k : KeplerianElements) (mu : ℝ) :
    (keplerianToUsmBody k mu).epsilon1Quaternion =
      Real.sin (0.5 * k.inclination) *
        Real.cos (0.5 * (k.longitudeOfAscendingNode -
          (k.argumentOfPeriapsis + k.trueAnomaly))) := rfl

theorem body_epsilon2 (k : KeplerianElements) (mu : ℝ) :
    (keplerianToUsmBody k mu).epsilon2Quaternion =
      Real.sin (0.5 * k.inclination) *
        Real.sin (0.5 * (k.longitudeOfAscendingNode -
          (k.argumentOfPeriapsis + k.trueAnomaly))) := rfl

theorem body_epsilon3 (k : KeplerianElements) (mu : ℝ) :
    (keplerianToUsmBody k mu).epsilon3Quaternion =
      Real.cos (0.5 * k.inclination) *
        Real.sin (0.5 * (k.longitudeOfAscendingNode +
          (k.argumentOfPeriapsis + k.trueAnomaly))) := rfl

theorem body_eta (k : KeplerianElements) (mu : ℝ) :
    (keplerianToUsmBody k mu).etaQuaternion =
      Real.cos (0.5 * k.inclination) *
        Real.cos (0.5 * (k.longitudeOfAscendingNode +
          (k.argumentOfPeriapsis + k.trueAnomaly))) := rfl

/-- Double-angle identity in the half-angle form in which the source writes
its quaternion components. -/
theorem cos_eq_half_squares (θ : ℝ) :
    Real.cos θ = Real.cos (0.5 * θ) * Real.cos (0.5 * θ) -
      Real.sin (0.5 * θ) * Real.sin (0.5 * θ) := by
  nth_rewrite 1 [show θ = 0.5 * θ + 0.5 * θ by ring]
  rw [Real.cos_add]

theorem sin_eq_half_squares (θ : ℝ) :
    Real.sin θ = 2 * Real.sin (0.5 * θ) * Real.cos (0.5 * θ) := by
  nth_rewrite 1 [show θ = 0.5 * θ + 0.5 * θ by ring]
  rw [Real.sin_add]
  ring

theorem cos_eq_one_sub_two_sin_half_sq (θ : ℝ) :
    Real.cos θ = 1 - 2 * (Real.sin (0.5 * θ) * Real.sin (0.5 * θ)) := by
  have h1 := cos_eq_half_squares θ
  nlinarith [Real.sin_sq_add_cos_sq (0.5 * θ)]

/-- The half-angle quotient for the cosine of the auxiliary longitude. -/
theorem div_sq_diff_formula {c2 sB cB : ℝ} (hc2 : c2 ≠ 0)
    (hpy : sB * sB + cB * cB = 1) :
    (c2 * cB * (c2 * cB) - c2 * sB * (c2 * sB)) /
      (c2 * sB * (c2 * sB) + c2 * cB * (c2 * cB)) = cB * cB - sB * sB := by
  have hden : c2 * sB * (c2 * sB) + c2 * cB * (c2 * cB) = c2 * c2 := by
    nlinarith
  rw [hden, div_eq_iff (mul_ne_zero hc2 hc2)]
  nlinarith

/-- The half-angle quotient for the sine of the auxiliary longitude. -/
theorem div_sq_double_formula {c2 sB cB : ℝ} (hc2 : c2 ≠ 0)
    (hpy : sB * sB + cB * cB = 1) :
    2 * (c2 * sB) * (c2 * cB) /
      (c2 * sB * (c2 * sB) + c2 * cB * (c2 * cB)) = 2 * sB * cB := by
  have hden : c2 * sB * (c2 * sB) + c2 * cB * (c2 * cB) = c2 * c2 := by
    nlinarith
  rw [hden, div_eq_iff (mul_ne_zero hc2 hc2)]
  ring

theorem body_cosineLambda (k : KeplerianElements) (mu : ℝ)
    (hc2 : Real.cos (0.5 * k.inclination) ≠ 0) :
    cosineLambda (keplerianToUsmBody k mu) =
      Real.cos (k.longitudeOfAscendingNode +
        (k.argumentOfPeriapsis + k.trueAnomaly)) := by
  unfold cosineLambda
  rw [body_epsilon3, body_eta,
    div_sq_diff_formula hc2 (by
      nlinarith [Real.sin_sq_add_cos_sq (0.5 * (k.longitudeOfAscendingNode +
        (k.argumentOfPeriapsis + k.trueAnomaly)))]),
    cos_eq_half_squares (k.longitudeOfAscendingNode +
      (k.argumentOfPeriapsis + k.trueAnomaly))]

theorem body_sineLambda (k : KeplerianElements) (mu : ℝ)
    (hc2 : Real.cos (0.5 * k.inclination) ≠ 0) :
    sineLambda (keplerianToUsmBody k mu) =
      Real.sin (k.longitudeOfAscendingNode +
        (k.argumentOfPeriapsis + k.trueAnomaly)) := by
  unfold sineLambda
  rw [body_epsilon3, body_eta,
    div_sq_double_formula hc2 (by
      nlinarith [Real.sin_sq_add_cos_sq (0.5 * (k.longitudeOfAscendingNode +
        (k.argumentOfPeriapsis + k.trueAnomaly)))]),
    sin_eq_half_squares (k.longitudeOfAscendingNode +
      (k.argumentOfPeriapsis + k.trueAnomaly))]

theorem body_ve1 (k : KeplerianElements) (mu : ℝ)
    (hc2 : Real.cos (0.5 * k.inclination) ≠ 0) :
    ve1 (keplerianToUsmBody k mu) =
      k.eccentricity * (keplerianToUsmBody k mu).CHodograph *
        Real.sin k.trueAnomaly := by
  unfold ve1
  rw [body_Rf1Hodograph, body_Rf2Hodograph, body_cosineLambda k mu hc2,
    body_sineLambda k mu hc2]
  have hs := Real.sin_sub (k.longitudeOfAscendingNode +
    (k.argumentOfPeriapsis + k.trueAnomaly))
    (k.longitudeOfAscendingNode + k.argumentOfPeriapsis)
  rw [show k.longitudeOfAscendingNode + (k.argumentOfPeriapsis + k.trueAnomaly) -
    (k.longitudeOfAscendingNode + k.argumentOfPeriapsis) = k.trueAnomaly by ring] at hs
  linear_combination (-(k.eccentricity * (keplerianToUsmBody k mu).CHodograph)) * hs

theorem body_ve2 (k : KeplerianElements) (mu : ℝ)
    (hc2 : Real.cos (0.5 * k.inclination) ≠ 0) :
    ve2 (keplerianToUsmBody k mu) =
      (keplerianToUsmBody k mu).CHodograph +
        k.eccentricity * (keplerianToUsmBody k mu).CHodograph *
          Real.cos k.trueAnomaly := by
  unfold ve2
  rw [body_Rf1Hodograph, body_Rf2Hodograph, body_cosineLambda k mu hc2,
    body_sineLambda k mu hc2]
  have hc := Real.cos_sub (k.longitudeOfAscendingNode +
    (k.argumentOfPeriapsis + k.trueAnomaly))
    (k.longitudeOfAscendingNode + k.argumentOfPeriapsis)
  rw [show k.longitudeOfAscendingNode + (k.argumentOfPeriapsis + k.trueAnomaly) -
    (k.longitudeOfAscendingNode + k.argumentOfPeriapsis) = k.trueAnomaly by ring] at hc
  linear_combination (-(k.eccentricity * (keplerianToUsmBody k mu).CHodograph)) * hc

theorem body_RHodographOut (k : KeplerianElements) (mu : ℝ)
    (he0 : 0 ≤ k.eccentricity) :
    RHodographElementOut (keplerianToUsmBody k mu) =
      k.eccentricity * (keplerianToUsmBody k mu).CHodograph := by
  unfold RHodographElementOut
  rw [body_Rf1Hodograph, body_Rf2Hodograph]
  have harg : -(k.eccentricity * (keplerianToUsmBody k mu).CHodograph) *
      Real.sin (k.longitudeOfAscendingNode + k.argumentOfPeriapsis) *
      (-(k.eccentricity * (keplerianToUsmBody k mu).CHodograph) *
        Real.sin (k.longitudeOfAscendingNode + k.argumentOfPeriapsis)) +
      k.eccentricity * (keplerianToUsmBody k mu).CHodograph *
        Real.cos (k.longitudeOfAscendingNode + k.argumentOfPeriapsis) *
      (k.eccentricity * (keplerianToUsmBody k mu).CHodograph *
        Real.cos (k.longitudeOfAscendingNode + k.argumentOfPeriapsis)) =
      (k.eccentricity * (keplerianToUsmBody k mu).CHodograph) ^ 2 := by
    nlinarith [Real.sin_sq_add_cos_sq (k.longitudeOfAscendingNode +
      k.argumentOfPeriapsis)]
  rw [harg, Real.sqrt_sq (mul_nonneg he0 (body_CHodograph_nonneg k mu))]

theorem body_eccentricityOutput (k : KeplerianElements) (mu : ℝ)
    (he0 : 0 ≤ k.eccentricity)
    (hCpos : 0 < (keplerianToUsmBody k mu).CHodograph) :
    eccentricityOutput (keplerianToUsmBody k mu) = k.eccentricity := by
  unfold eccentricityOutput
  rw [body_RHodographOut k mu he0, mul_div_assoc, div_self hCpos.ne', mul_one]

theorem body_inclinationOutput (k : KeplerianElements) (mu : ℝ)
    (hi0 : 0 ≤ k.inclination) (hipi : k.inclination ≤ π) :
    inclinationOutput (keplerianToUsmBody k mu) = k.inclination := by
  unfold inclinationOutput
  rw [body_epsilon1, body_epsilon2]
  have h1 : 1 - 2 * (Real.sin (0.5 * k.inclination) *
      Real.cos (0.5 * (k.longitudeOfAscendingNode -
        (k.argumentOfPeriapsis + k.trueAnomaly))) *
      (Real.sin (0.5 * k.inclination) *
      Real.cos (0.5 * (k.longitudeOfAscendingNode -
        (k.argumentOfPeriapsis + k.trueAnomaly)))) +
      Real.sin (0.5 * k.inclination) *
      Real.sin (0.5 * (k.longitudeOfAscendingNode -
        (k.argumentOfPeriapsis + k.trueAnomaly))) *
      (Real.sin (0.5 * k.inclination) *
      Real.sin (0.5 * (k.longitudeOfAscendingNode -
        (k.argumentOfPeriapsis + k.trueAnomaly))))) =
      Real.cos k.inclination := by
    rw [cos_eq_one_sub_two_sin_half_sq k.inclination]
    nlinarith [Real.sin_sq_add_cos_sq (0.5 * (k.longitudeOfAscendingNode -
      (k.argumentOfPeriapsis + k.trueAnomaly)))]
  rw [h1, Real.arccos_cos hi0 hipi]

theorem body_trueAnomalyOutput (k : KeplerianElements) (mu : ℝ)
    (hc2 : Real.cos (0.5 * k.inclination) ≠ 0)
    (he0 : 0 ≤ k.eccentricity)
    (hRpos : 0 < k.eccentricity * (keplerianToUsmBody k mu).CHodograph)
    (hnu0 : 0 ≤ k.trueAnomaly) (hnupi : k.trueAnomaly ≤ π) :
    trueAnomalyOutput (keplerianToUsmBody k mu) = k.trueAnomaly := by
  rw [trueAnomalyOutput_eq]
  rw [body_ve2 k mu hc2, body_RHodographOut k mu he0]
  rw [show (keplerianToUsmBody k mu).CHodograph +
      k.eccentricity * (keplerianToUsmBody k mu).CHodograph * Real.cos k.trueAnomaly -
      (keplerianToUsmBody k mu).CHodograph =
      k.eccentricity * (keplerianToUsmBody k mu).CHodograph * Real.cos k.trueAnomaly
      by ring]
  rw [mul_div_cancel_left₀ _ hRpos.ne']
  rw [Real.arccos_cos hnu0 hnupi]

theorem body_raanOutput (k : KeplerianElements) (mu : ℝ)
    (hspos : 0 < Real.sin (0.5 * k.inclination))
    (hc2pos : 0 < Real.cos (0.5 * k.inclination))
    (hnd : ¬ raanDegenerateCondition (keplerianToUsmBody k mu))
    (hraan0 : 0 ≤ k.longitudeOfAscendingNode)
    (hraanpi : k.longitudeOfAscendingNode ≤ π) :
    longitudeOfAscendingNodeOutput (keplerianToUsmBody k mu) =
      k.longitudeOfAscendingNode := by
  unfold longitudeOfAscendingNodeOutput
  rw [if_neg hnd]
  rw [body_epsilon1, body_epsilon2, body_epsilon3, body_eta]
  have hpyA := Real.sin_sq_add_cos_sq (0.5 * (k.longitudeOfAscendingNode -
    (k.argumentOfPeriapsis + k.trueAnomaly)))
  have hpyB := Real.sin_sq_add_cos_sq (0.5 * (k.longitudeOfAscendingNode +
    (k.argumentOfPeriapsis + k.trueAnomaly)))
  have h1 : Real.sin (0.5 * k.inclination) *
      Real.cos (0.5 * (k.longitudeOfAscendingNode -
        (k.argumentOfPeriapsis + k.trueAnomaly))) *
      (Real.sin (0.5 * k.inclination) *
      Real.cos (0.5 * (k.longitudeOfAscendingNode -
        (k.argumentOfPeriapsis + k.trueAnomaly)))) +
      Real.sin (0.5 * k.inclination) *
      Real.sin (0.5 * (k.longitudeOfAscendingNode -
        (k.argumentOfPeriapsis + k.trueAnomaly))) *
      (Real.sin (0.5 * k.inclination) *
      Real.sin (0.5 * (k.longitudeOfAscendingNode -
        (k.argumentOfPeriapsis + k.trueAnomaly)))) =
      Real.sin (0.5 * k.inclination) * Real.sin (0.5 * k.inclination) := by
    nlinarith
  have h2 : Real.cos (0.5 * k.inclination) *
      Real.cos (0.5 * (k.longitudeOfAscendingNode +
        (k.argumentOfPeriapsis + k.trueAnomaly))) *
      (Real.cos (0.5 * k.inclination) *
      Real.cos (0.5 * (k.longitudeOfAscendingNode +
        (k.argumentOfPeriapsis + k.trueAnomaly)))) +
      Real.cos (0.5 * k.inclination) *
      Real.sin (0.5 * (k.longitudeOfAscendingNode +
        (k.argumentOfPeriapsis + k.trueAnomaly))) *
      (Real.cos (0.5 * k.inclination) *
      Real.sin (0.5 * (k.longitudeOfAscendingNode +
        (k.argumentOfPeriapsis + k.trueAnomaly)))) =
      Real.cos (0.5 * k.inclination) * Real.cos (0.5 * k.inclination) := by
    nlinarith
  have hnum : Real.sin (0.5 * k.inclination) *
      Real.cos (0.5 * (k.longitudeOfAscendingNode -
        (k.argumentOfPeriapsis + k.trueAnomaly))) *
      (Real.cos (0.5 * k.inclination) *
      Real.cos (0.5 * (k.longitudeOfAscendingNode +
        (k.argumentOfPeriapsis + k.trueAnomaly)))) -
      Real.sin (0.5 * k.inclination) *
      Real.sin (0.5 * (k.longitudeOfAscendingNode -
        (k.argumentOfPeriapsis + k.trueAnomaly))) *
      (Real.cos (0.5 * k.inclination) *
      Real.sin (0.5 * (k.longitudeOfAscendingNode +
        (k.argumentOfPeriapsis + k.trueAnomaly)))) =
      Real.sin (0.5 * k.inclination) * Real.cos (0.5 * k.inclination) *
        Real.cos k.longitudeOfAscendingNode := by
    have hAB := Real.cos_add (0.5 * (k.longitudeOfAscendingNode -
      (k.argumentOfPeriapsis + k.trueAnomaly)))
      (0.5 * (k.longitudeOfAscendingNode + (k.argumentOfPeriapsis + k.trueAnomaly)))
    rw [show 0.5 * (k.longitudeOfAscendingNode -
      (k.argumentOfPeriapsis + k.trueAnomaly)) +
      0.5 * (k.longitudeOfAscendingNode + (k.argumentOfPeriapsis + k.trueAnomaly)) =
      k.longitudeOfAscendingNode by ring] at hAB
    linear_combination (-(Real.sin (0.5 * k.inclination) *
      Real.cos (0.5 * k.inclination))) * hAB
  rw [h1, h2, hnum]
  rw [show Real.sin (0.5 * k.inclination) * Real.sin (0.5 * k.inclination) *
      (Real.cos (0.5 * k.inclination) * Real.cos (0.5 * k.inclination)) =
      (Real.sin (0.5 * k.inclination) * Real.cos (0.5 * k.inclination)) ^ 2 by ring]
  rw [Real.sqrt_sq (mul_nonneg hspos.le hc2pos.le)]
  rw [mul_div_cancel_left₀ _ (mul_pos hspos hc2pos).ne']
  rw [Real.arccos_cos hraan0 hraanpi]
  exact addTwoPiWhileNegative_of_le (neg_tolerance_le_of_nonneg hraan0)

theorem body_semiMajorAxisOutput (k : KeplerianElements) (mu : ℝ)
    (hmu : 0 < mu) (he0 : 0 ≤ k.eccentricity)
    (hp : 0 < semiLatusRectumInput k)
    (hc2 : Real.cos (0.5 * k.inclination) ≠ 0)
    (hCpos : 0 < (keplerianToUsmBody k mu).CHodograph) :
    semiMajorAxisOutput (keplerianToUsmBody k mu) mu = k.semiMajorAxis := by
  have hC2 : (keplerianToUsmBody k mu).CHodograph *
      (keplerianToUsmBody k mu).CHodograph = mu / semiLatusRectumInput k := by
    rw [body_CHodograph]
    exact Real.mul_self_sqrt (div_pos hmu hp).le
  unfold semiMajorAxisOutput
  rw [body_eccentricityOutput k mu he0 hCpos]
  split
  next hpar =>
    have hsel : semiLatusRectumInput k = k.semiMajorAxis := by
      unfold semiLatusRectumInput
      rw [if_pos hpar]
    rw [hC2, hsel]
    rw [div_div_eq_mul_div, mul_comm, mul_div_assoc, div_self hmu.ne', mul_one]
  next hpar =>
    have hsel : semiLatusRectumInput k =
        k.semiMajorAxis * (1 - k.eccentricity * k.eccentricity) := by
      unfold semiLatusRectumInput
      rw [if_neg hpar]
    have hden : 2 * (keplerianToUsmBody k mu).CHodograph *
        ve2 (keplerianToUsmBody k mu) -
        (ve1 (keplerianToUsmBody k mu) * ve1 (keplerianToUsmBody k mu) +
         ve2 (keplerianToUsmBody k mu) * ve2 (keplerianToUsmBody k mu)) =
        (keplerianToUsmBody k mu).CHodograph *
          (keplerianToUsmBody k mu).CHodograph *
          (1 - k.eccentricity * k.eccentricity) := by
      rw [body_ve1 k mu hc2, body_ve2 k mu hc2]
      linear_combination (-(k.eccentricity *
        (keplerianToUsmBody k mu).CHodograph) ^ 2) *
        Real.sin_sq_add_cos_sq k.trueAnomaly
    have h1me : (1 : ℝ) - k.eccentricity * k.eccentricity ≠ 0 := by
      intro hz
      rw [hsel, hz, mul_zero] at hp
      exact lt_irrefl 0 hp
    have hane : k.semiMajorAxis ≠ 0 := by
      intro hz
      rw [hsel, hz, zero_mul] at hp
      exact lt_irrefl 0 hp
    rw [hden, hC2, hsel]
    field_simp
    ring

/-- The argument-of-periapsis wrap recovers the input argument of periapsis
once RAAN and true anomaly are recovered exactly. -/
theorem body_argumentOfPeriapsis (k : KeplerianElements) (mu : ℝ)
    (hc2 : Real.cos (0.5 * k.inclination) ≠ 0)
    (hraanOut : longitudeOfAscendingNodeOutput (keplerianToUsmBody k mu) =
      k.longitudeOfAscendingNode)
    (hnuOut : trueAnomalyOutput (keplerianToUsmBody k mu) = k.trueAnomaly)
    (hraan0 : 0 ≤ k.longitudeOfAscendingNode)
    (hnu0 : 0 ≤ k.trueAnomaly)
    (hom0 : 0 ≤ k.argumentOfPeriapsis)
    (hom2pi : k.argumentOfPeriapsis < 2 * π - singularityTolerance) :
    addTwoPiWhileNegative (lambdaFromSineAndCosine (keplerianToUsmBody k mu) -
      longitudeOfAscendingNodeOutput (keplerianToUsmBody k mu) -
      trueAnomalyOutput (keplerianToUsmBody k mu)) = k.argumentOfPeriapsis := by
  rw [hraanOut, hnuOut]
  have hlam_le : lambdaFromSineAndCosine (keplerianToUsmBody k mu) ≤ π :=
    atan2_le_pi _ _
  have hlam_ex : ∃ n : ℤ, lambdaFromSineAndCosine (keplerianToUsmBody k mu) =
      (k.longitudeOfAscendingNode + (k.argumentOfPeriapsis + k.trueAnomaly)) +
        n * (2 * π) := by
    unfold lambdaFromSineAndCosine
    rw [body_sineLambda k mu hc2, body_cosineLambda k mu hc2]
    exact atan2_sin_cos_eq_add_int _
  obtain ⟨n, hn⟩ := hlam_ex
  set x := lambdaFromSineAndCosine (keplerianToUsmBody k mu) -
    k.longitudeOfAscendingNode - k.trueAnomaly with hxdef
  have hx_eq : x = k.argumentOfPeriapsis + (n : ℝ) * (2 * π) := by
    rw [hxdef, hn]
    ring
  obtain ⟨m, hm0, hm⟩ := addTwoPiWhileNegative_exists_int x
  have hlb := le_addTwoPiWhileNegative x
  have htol1 : singularityTolerance < 1 := by norm_num [singularityTolerance]
  have hub : addTwoPiWhileNegative x < 2 * π - singularityTolerance := by
    rcases lt_or_le x (-singularityTolerance) with hlt | hle
    · have := addTwoPiWhileNegative_lt hlt
      linarith
    · rw [addTwoPiWhileNegative_of_le hle]
      have hxle : x ≤ π := by
        rw [hxdef]
        linarith
      nlinarith [Real.pi_gt_three]
  have hval : addTwoPiWhileNegative x =
      k.argumentOfPeriapsis + ((n + m : ℤ) : ℝ) * (2 * π) := by
    rw [hm, hx_eq]
    push_cast
    ring
  have h2pi : (0 : ℝ) < 2 * π := by positivity
  have hK1 : ((n + m : ℤ) : ℝ) < 1 := by
    have h := hub
    rw [hval] at h
    have hmul : ((n + m : ℤ) : ℝ) * (2 * π) < 1 * (2 * π) := by
      linarith [singularityTolerance_pos]
    exact (mul_lt_mul_right h2pi).mp hmul
  have hK2 : (-1 : ℝ) < ((n + m : ℤ) : ℝ) := by
    have h := hlb
    rw [hval] at h
    have hmul : (-1 : ℝ) * (2 * π) < ((n + m : ℤ) : ℝ) * (2 * π) := by
      linarith
    exact (mul_lt_mul_right h2pi).mp hmul
  have hKz : (n + m : ℤ) = 0 := by
    have a1 : (n + m : ℤ) < 1 := by exact_mod_cast hK1
    have a2 : (-1 : ℤ) < n + m := by exact_mod_cast hK2
    omega
  rw [hval, hKz]
  push_cast
  ring

/-- Claim C1 (amended): the Keplerian-USM round trip is exact — in exact real
arithmetic, field by field — for every non-circular orbit whose computed
quaternion avoids the pure-prograde and pure-retrograde tolerance bands,
provided RAAN and true anomaly lie in `[0, pi]` and the argument of periapsis
in `[0, 2 pi - singularityTolerance)`; the spec's unrestricted version fails
because RAAN and true anomaly are recovered through bare arccosines. -/
theorem claim_C1_roundTripAmended (k : KeplerianElements) (mu : ℝ)
    (hmu : 0 < mu)
    (he0 : 0 ≤ k.eccentricity)
    (hp : 0 < semiLatusRectumInput k)
    (hi0 : 0 ≤ k.inclination) (hipi : k.inclination ≤ π)
    (hprog : ¬ (|(keplerianToUsmBody k mu).epsilon1Quaternion| < singularityTolerance ∧
      |(keplerianToUsmBody k mu).epsilon2Quaternion| < singularityTolerance))
    (hretro : ¬ usmSingularityCondition (keplerianToUsmBody k mu))
    (hR : singularityTolerance ≤ k.eccentricity * (keplerianToUsmBody k mu).CHodograph)
    (hraan0 : 0 ≤ k.longitudeOfAscendingNode)
    (hraanpi : k.longitudeOfAscendingNode ≤ π)
    (hnu0 : 0 ≤ k.trueAnomaly) (hnupi : k.trueAnomaly ≤ π)
    (hom0 : 0 ≤ k.argumentOfPeriapsis)
    (hom2pi : k.argumentOfPeriapsis < 2 * π - singularityTolerance) :
    convertKeplerianToUnifiedStateModelElements k mu =
      .ok (keplerianToUsmBody k mu) ∧
    convertUnifiedStateModelToKeplerianElements (keplerianToUsmBody k mu) mu = k := by
  have hCpos : 0 < (keplerianToUsmBody k mu).CHodograph := by
    rw [body_CHodograph]
    exact Real.sqrt_pos.mpr (div_pos hmu hp)
  have hRpos : 0 < k.eccentricity * (keplerianToUsmBody k mu).CHodograph :=
    lt_of_lt_of_le singularityTolerance_pos hR
  have hs0 : 0 ≤ Real.sin (0.5 * k.inclination) :=
    Real.sin_nonneg_of_nonneg_of_le_pi (by linarith)
      (by linarith [Real.pi_pos])
  have hc20 : 0 ≤ Real.cos (0.5 * k.inclination) :=
    Real.cos_nonneg_of_mem_Icc
      (Set.mem_Icc.mpr ⟨by linarith [Real.pi_pos], by linarith⟩)
  have hspos : 0 < Real.sin (0.5 * k.inclination) := by
    rcases eq_or_lt_of_le hs0 with heq | h
    · exfalso
      apply hprog
      constructor
      · rw [body_epsilon1, ← heq, zero_mul, abs_zero]
        exact singularityTolerance_pos
      · rw [body_epsilon2, ← heq, zero_mul, abs_zero]
        exact singularityTolerance_pos
    · exact h
  unfold usmSingularityCondition at hretro
  have hc2pos : 0 < Real.cos (0.5 * k.inclination) := by
    rcases eq_or_lt_of_le hc20 with heq | h
    · exfalso
      apply hretro
      constructor
      · rw [body_epsilon3, ← heq, zero_mul, abs_zero]
        exact singularityTolerance_pos
      · rw [body_eta, ← heq, zero_mul, abs_zero]
        exact singularityTolerance_pos
    · exact h
  have hc2ne : Real.cos (0.5 * k.inclination) ≠ 0 := hc2pos.ne'
  have hnd : ¬ raanDegenerateCondition (keplerianToUsmBody k mu) := by
    unfold raanDegenerateCondition
    exact not_or.mpr ⟨hprog, hretro⟩
  have hnotcirc : ¬ |RHodographElementOut (keplerianToUsmBody k mu)| <
      singularityTolerance := by
    rw [body_RHodographOut k mu he0, abs_of_pos hRpos]
    exact not_lt.mpr hR
  refine ⟨?_, ?_⟩
  · unfold convertKeplerianToUnifiedStateModelElements
    rw [if_neg (by push_neg; exact ⟨hi0, hipi⟩)]
  · rw [usmToKeplerian_eq_of_not_singular _ mu hretro, if_neg hnotcirc]
    have hraanOut := body_raanOutput k mu hspos hc2pos hnd hraan0 hraanpi
    have hnuOut := body_trueAnomalyOutput k mu hc2ne he0 hRpos hnu0 hnupi
    apply KeplerianElements.ext
    · exact body_semiMajorAxisOutput k mu hmu he0 hp hc2ne hCpos
    · exact body_eccentricityOutput k mu he0 hCpos
    · exact body_inclinationOutput k mu hi0 hipi
    · exact hraanOut
    · exact body_argumentOfPeriapsis k mu hc2ne hraanOut hnuOut hraan0 hnu0
        hom0 hom2pi
    · exact hnuOut

/-- Claim C1 (counterexample): at `c1Input` (true anomaly `3 pi / 2`) the
forward conversion succeeds, but the round trip returns true anomaly
`pi / 2`: an error of `pi`, far outside any tolerance, so the unrestricted
round-trip claim fails. -/
theorem claim_C1_counterexample :
    convertKeplerianToUnifiedStateModelElements c1Input 1 =
      .ok (keplerianToUsmBody c1Input 1) ∧
    (convertUnifiedStateModelToKeplerianElements
      (keplerianToUsmBody c1Input 1) 1).trueAnomaly = π / 2 ∧
    c1Input.trueAnomaly = 3 * π / 2 ∧
    (π / 2 : ℝ) ≠ 3 * π / 2 := by
  have hf1 : c1Input.semiMajorAxis = 1 := rfl
  have hf2 : c1Input.eccentricity = 1 / 2 := rfl
  have hf3 : c1Input.inclination = π / 2 := rfl
  have hf4 : c1Input.longitudeOfAscendingNode = 0 := rfl
  have hf5 : c1Input.argumentOfPeriapsis = 0 := rfl
  have hf6 : c1Input.trueAnomaly = 3 * π / 2 := rfl
  have hguard : ¬ (c1Input.inclination < 0 ∨ c1Input.inclination > π) := by
    rw [hf3]
    push_neg
    constructor
    · positivity
    · linarith [Real.pi_pos]
  have h34c : Real.cos (3 * π / 4) = -(Real.sqrt 2 / 2) := by
    rw [show (3 : ℝ) * π / 4 = π - π / 4 by ring, Real.cos_pi_sub,
      Real.cos_pi_div_four]
  have h34s : Real.sin (3 * π / 4) = Real.sqrt 2 / 2 := by
    rw [show (3 : ℝ) * π / 4 = π - π / 4 by ring, Real.sin_pi_sub,
      Real.sin_pi_div_four]
  have h22 : Real.sqrt 2 / 2 * (Real.sqrt 2 / 2) = 1 / 2 := by
    rw [div_mul_div_comm, Real.mul_self_sqrt (by norm_num : (0 : ℝ) ≤ 2)]
    norm_num
  have hbe3 : (keplerianToUsmBody c1Input 1).epsilon3Quaternion = 1 / 2 := by
    rw [body_epsilon3, hf3, hf4, hf5, hf6]
    rw [show (0.5 : ℝ) * (π / 2) = π / 4 by ring,
      show (0.5 : ℝ) * (0 + (0 + 3 * π / 2)) = 3 * π / 4 by ring,
      Real.cos_pi_div_four, h34s, h22]
  have hbeta : (keplerianToUsmBody c1Input 1).etaQuaternion = -(1 / 2) := by
    rw [body_eta, hf3, hf4, hf5, hf6]
    rw [show (0.5 : ℝ) * (π / 2) = π / 4 by ring,
      show (0.5 : ℝ) * (0 + (0 + 3 * π / 2)) = 3 * π / 4 by ring,
      Real.cos_pi_div_four, h34c, mul_neg, h22]
  have hbRf1 : (keplerianToUsmBody c1Input 1).Rf1Hodograph = 0 := by
    rw [body_Rf1Hodograph, hf4, hf5]
    rw [show (0 : ℝ) + 0 = 0 by ring, Real.sin_zero, mul_zero]
  have hbRf2 : (keplerianToUsmBody c1Input 1).Rf2Hodograph =
      (keplerianToUsmBody c1Input 1).CHodograph / 2 := by
    rw [body_Rf2Hodograph, hf2, hf4, hf5]
    rw [show (0 : ℝ) + 0 = 0 by ring, Real.cos_zero, mul_one]
    ring
  have habs : |(1 : ℝ) / 2 - 1| = 1 / 2 := by
    rw [abs_of_nonpos (by norm_num)]
    norm_num
  have hsel : semiLatusRectumInput c1Input = 3 / 4 := by
    unfold semiLatusRectumInput
    rw [hf2, hf1, if_neg (by rw [habs]; norm_num [singularityTolerance])]
    norm_num
  have hbC : (keplerianToUsmBody c1Input 1).CHodograph = Real.sqrt (4 / 3) := by
    rw [body_CHodograph, hsel, show (1 : ℝ) / (3 / 4) = 4 / 3 by norm_num]
  have hCge : 1 ≤ (keplerianToUsmBody c1Input 1).CHodograph := by
    rw [hbC, show (1 : ℝ) = Real.sqrt 1 by rw [Real.sqrt_one]]
    exact Real.sqrt_le_sqrt (by norm_num)
  have hns : ¬ usmSingularityCondition (keplerianToUsmBody c1Input 1) := by
    unfold usmSingularityCondition
    rw [hbe3]
    intro hco
    have h1 := hco.1
    rw [abs_of_pos (by norm_num)] at h1
    norm_num [singularityTolerance] at h1
  have hR' : RHodographElementOut (keplerianToUsmBody c1Input 1) =
      (keplerianToUsmBody c1Input 1).CHodograph / 2 := by
    unfold RHodographElementOut
    rw [hbRf1, hbRf2]
    rw [show (0 : ℝ) * 0 + (keplerianToUsmBody c1Input 1).CHodograph / 2 *
      ((keplerianToUsmBody c1Input 1).CHodograph / 2) =
      ((keplerianToUsmBody c1Input 1).CHodograph / 2) ^ 2 by ring]
    exact Real.sqrt_sq (by linarith)
  have htol12 : singularityTolerance ≤ 1 / 2 := by
    norm_num [singularityTolerance]
  have hnotcirc : ¬ |RHodographElementOut (keplerianToUsmBody c1Input 1)| <
      singularityTolerance := by
    rw [hR', abs_of_pos (by linarith)]
    push_neg
    linarith
  have hcosl : cosineLambda (keplerianToUsmBody c1Input 1) = 0 := by
    unfold cosineLambda
    rw [hbe3, hbeta]
    norm_num
  have hsinl : sineLambda (keplerianToUsmBody c1Input 1) = -1 := by
    unfold sineLambda
    rw [hbe3, hbeta]
    norm_num
  have hve2C : ve2 (keplerianToUsmBody c1Input 1) =
      (keplerianToUsmBody c1Input 1).CHodograph := by
    unfold ve2
    rw [hbRf1, hbRf2, hcosl, hsinl]
    ring
  refine ⟨?_, ?_, hf6, ?_⟩
  · unfold convertKeplerianToUnifiedStateModelElements
    rw [if_neg hguard]
  · rw [usmToKeplerian_eq_of_not_singular _ 1 hns, if_neg hnotcirc]
    simp only
    rw [trueAnomalyOutput_eq, hve2C, hR', sub_self, zero_div, Real.arccos_zero]
  · intro hcontra
    nlinarith [Real.pi_pos]

/-- Claim C1 (witness for the amended theorem): the round trip is exact at a
concrete input satisfying all the amended hypotheses. -/
theorem claim_C1_roundTripAmended_witness :
    convertKeplerianToUnifiedStateModelElements c1WitnessInput 1 =
      .ok (keplerianToUsmBody c1WitnessInput 1) ∧
    convertUnifiedStateModelToKeplerianElements
      (keplerianToUsmBody c1WitnessInput 1) 1 = c1WitnessInput := by
  have hf1 : c1WitnessInput.semiMajorAxis = 1 := rfl
  have hf2 : c1WitnessInput.eccentricity = 1 / 2 := rfl
  have hf3 : c1WitnessInput.inclination = π / 2 := rfl
  have hf4 : c1WitnessInput.longitudeOfAscendingNode = 0 := rfl
  have hf5 : c1WitnessInput.argumentOfPeriapsis = 0 := rfl
  have hf6 : c1WitnessInput.trueAnomaly = π / 2 := rfl
  have h22 : Real.sqrt 2 / 2 * (Real.sqrt 2 / 2) = 1 / 2 := by
    rw [div_mul_div_comm, Real.mul_self_sqrt (by norm_num : (0 : ℝ) ≤ 2)]
    norm_num
  have habs : |(1 : ℝ) / 2 - 1| = 1 / 2 := by
    rw [abs_of_nonpos (by norm_num)]
    norm_num
  have hsel : semiLatusRectumInput c1WitnessInput = 3 / 4 := by
    unfold semiLatusRectumInput
    rw [hf2, hf1, if_neg (by rw [habs]; norm_num [singularityTolerance])]
    norm_num
  have hbC : (keplerianToUsmBody c1WitnessInput 1).CHodograph =
      Real.sqrt (4 / 3) := by
    rw [body_CHodograph, hsel, show (1 : ℝ) / (3 / 4) = 4 / 3 by norm_num]
  have hCge : 1 ≤ (keplerianToUsmBody c1WitnessInput 1).CHodograph := by
    rw [hbC, show (1 : ℝ) = Real.sqrt 1 by rw [Real.sqrt_one]]
    exact Real.sqrt_le_sqrt (by norm_num)
  have hbe1 : (keplerianToUsmBody c1WitnessInput 1).epsilon1Quaternion =
      1 / 2 := by
    rw [body_epsilon1, hf3, hf4, hf5, hf6]
    rw [show (0.5 : ℝ) * (π / 2) = π / 4 by ring,
      show (0.5 : ℝ) * (0 - (0 + π / 2)) = -(π / 4) by ring,
      Real.cos_neg, Real.sin_pi_div_four, Real.cos_pi_div_four, h22]
  have hbeta : (keplerianToUsmBody c1WitnessInput 1).etaQuaternion = 1 / 2 := by
    rw [body_eta, hf3, hf4, hf5, hf6]
    rw [show (0.5 : ℝ) * (π / 2) = π / 4 by ring,
      show (0.5 : ℝ) * (0 + (0 + π / 2)) = π / 4 by ring,
      Real.cos_pi_div_four, h22]
  have htol12 : singularityTolerance ≤ 1 / 2 := by
    norm_num [singularityTolerance]
  have hprog : ¬ (|(keplerianToUsmBody c1WitnessInput 1).epsilon1Quaternion| <
      singularityTolerance ∧
      |(keplerianToUsmBody c1WitnessInput 1).epsilon2Quaternion| <
      singularityTolerance) := by
    intro hco
    have h1 := hco.1
    rw [hbe1, abs_of_pos (by norm_num)] at h1
    linarith
  have hretro : ¬ usmSingularityCondition (keplerianToUsmBody c1WitnessInput 1) := by
    unfold usmSingularityCondition
    intro hco
    have h1 := hco.2
    rw [hbeta, abs_of_pos (by norm_num)] at h1
    linarith
  have hR : singularityTolerance ≤ c1WitnessInput.eccentricity *
      (keplerianToUsmBody c1WitnessInput 1).CHodograph := by
    rw [hf2]
    nlinarith
  exact claim_C1_roundTripAmended c1WitnessInput 1 (by norm_num)
    (by rw [hf2]; norm_num) (by rw [hsel]; norm_num)
    (by rw [hf3]; positivity) (by rw [hf3]; linarith [Real.pi_pos])
    hprog hretro hR
    (by rw [hf4]) (by rw [hf4]; exact Real.pi_nonneg)
    (by rw [hf6]; positivity) (by rw [hf6]; linarith [Real.pi_pos])
    (by rw [hf5])
    (by rw [hf5]; nlinarith [Real.pi_gt_three, singularityTolerance_pos, htol12])

end UsmConversions
